import Mathlib

/-!
Shallow embedding of the `rumt` event-bus core.

The embedding follows the source files `src/event_bus.rs` and `src/global.rs`:

* `RuntimeEvent` mirrors the `RuntimeEvent` enum (two forms, `OnceTriggered`
  and `Static`, each carrying an `event_name` string; derived structural
  equality).
* Rust payload values of arbitrary `'static` types are modelled by `DynPayload`,
  a runtime type tag (`PayloadTy`) paired with the carried data.  The
  `Arc<T>` shared-ownership wrapper is modelled by the `PayloadTy.arc`
  constructor, and `Any::downcast_ref` by `DynPayload.downcast`, which
  succeeds exactly when the runtime tag matches the requested type.
* A handler's awaited unit of work is modelled by its observable effect
  trace, a `List Nat`; invoking the handler and awaiting the returned future
  to completion appends that trace to the shared log
  (`runListenersLog`, mirroring the `for` loop in `RuntimeEventBus::emit`).
* The `HashMap<RuntimeEvent, Vec<RuntimeEventListener>>` field `pairs` is
  modelled as an association list with unique keys (`findListeners` is map
  lookup, `insertListener` is `entry(..).or_insert(vec![]).push(..)`,
  `removeEntry` is `HashMap::remove`, which on a unique-key association list
  is erasure of every entry with that key).
* The global mutable state of `src/global.rs` (`RUNTIME_MODULE_ENV`,
  `RUNTIME_EVENT_BUS`, both `Option`s behind locks) is modelled by
  `GlobalState` with explicit state passing; a panic (`expect`) is modelled
  as `Except.error` carrying the panic diagnostic, while a normal return is
  `Except.ok`.
-/

namespace Rumt

/-- Mirrors `enum RuntimeEvent` (event_bus.rs lines 6-10): an event key is a
form (`OnceTriggered` or `Static`) together with a name; derived structural
equality (`#[derive(PartialEq, Eq, Hash)]`) makes two keys equal iff both the
form and the name match. -/
inductive RuntimeEvent where
  | OnceTriggered (event_name : String)
  | Static (event_name : String)
deriving DecidableEq, Repr

/-- Runtime type tags for payload values: a named concrete Rust type, or the
`Arc<_>` shared-ownership wrapper around one (`std::sync::Arc`). -/
inductive PayloadTy where
  | base (type_name : String)
  | arc (inner : PayloadTy)
deriving DecidableEq, Repr

/-- A type-erased payload (`&dyn RuntimeEventListenerHandlerArg`): the value's
runtime type tag together with the carried data. -/
structure DynPayload where
  ty : PayloadTy
  data : Nat
deriving DecidableEq, Repr

/-- Mirrors `<dyn RuntimeEventListenerHandlerArg>::downcast::<T>` (event_bus.rs
lines 22-26): recovers the carried data exactly when the runtime type tag
matches the requested type `t`. -/
def DynPayload.downcast (p : DynPayload) (t : PayloadTy) : Option Nat :=
  if p.ty = t then some p.data else none

/-- Mirrors `struct RuntimeEventListener` (event_bus.rs lines 31-34): a tag and
a type-erased handler.  The handler is modelled by the observable effect trace
its awaited unit of work produces for a given payload. -/
structure RuntimeEventListener where
  tag : String
  handler : DynPayload → List Nat

/-- Mirrors `struct RuntimeEventBus` (event_bus.rs lines 47-49): the map from
event keys to ordered listener sequences, as a unique-key association list. -/
structure RuntimeEventBus where
  pairs : List (RuntimeEvent × List RuntimeEventListener)

/-- Mirrors `RuntimeEventBus::new` (event_bus.rs lines 52-56). -/
def RuntimeEventBus.new : RuntimeEventBus := ⟨[]⟩

/-- Association-list lookup, the model of `HashMap::get` on `pairs`. -/
def findListeners :
    List (RuntimeEvent × List RuntimeEventListener) → RuntimeEvent →
    Option (List RuntimeEventListener)
  | [], _ => none
  | (k, ls) :: rest, e => if k = e then some ls else findListeners rest e

/-- Model of `self.pairs.entry(event).or_insert(vec![]).push(listener)`
(event_bus.rs line 72): push onto the sequence of the matching key, or append
a fresh singleton entry when the key is absent. -/
def insertListener :
    List (RuntimeEvent × List RuntimeEventListener) → RuntimeEvent →
    RuntimeEventListener → List (RuntimeEvent × List RuntimeEventListener)
  | [], e, l => [(e, [l])]
  | (k, ls) :: rest, e, l =>
      if k = e then (k, ls ++ [l]) :: rest
      else (k, ls) :: insertListener rest e l

/-- Mirrors `RuntimeEventBus::add_listener` (event_bus.rs lines 71-73). -/
def RuntimeEventBus.add_listener (bus : RuntimeEventBus) (event : RuntimeEvent)
    (listener : RuntimeEventListener) : RuntimeEventBus :=
  ⟨insertListener bus.pairs event listener⟩

/-- Model of `self.pairs.remove(event)` (event_bus.rs line 88): erase the
entry for the key (on the unique-key association list, every entry whose key
equals `e`). -/
def removeEntry :
    List (RuntimeEvent × List RuntimeEventListener) → RuntimeEvent →
    List (RuntimeEvent × List RuntimeEventListener)
  | [], _ => []
  | (k, ls) :: rest, e =>
      if k = e then removeEntry rest e else (k, ls) :: removeEntry rest e

/-- Mirrors the delivery loop of `RuntimeEventBus::emit` (event_bus.rs lines
79-84): for each listener in registration order, invoke its handler with the
shared payload and await the returned future to completion — appending that
invocation's effect trace to the shared log — before moving to the next
listener. -/
def runListenersLog :
    List RuntimeEventListener → DynPayload → List Nat → List Nat
  | [], _, log => log
  | l :: rest, p, log => runListenersLog rest p (log ++ l.handler p)

/-- Mirrors `RuntimeEventBus::emit` (event_bus.rs lines 75-90).  The bare
argument of type tag `argTy` is wrapped exactly once in the shared-ownership
container (`Arc::new(arg)`, line 77), every listener currently under `event`
is run sequentially (lines 79-84), and finally the whole entry for the key is
removed when the key's form is `OnceTriggered` (lines 87-89).  Returns the
updated bus together with the emission's observable effect trace. -/
def RuntimeEventBus.emit (bus : RuntimeEventBus) (event : RuntimeEvent)
    (argTy : PayloadTy) (argData : Nat) : RuntimeEventBus × List Nat :=
  let shared_payload : DynPayload := ⟨PayloadTy.arc argTy, argData⟩
  let trace :=
    match findListeners bus.pairs event with
    | some listeners => runListenersLog listeners shared_payload []
    | none => []
  match event with
  | RuntimeEvent.OnceTriggered _ => (⟨removeEntry bus.pairs event⟩, trace)
  | RuntimeEvent.Static _ => (⟨bus.pairs⟩, trace)

/-- Mirrors `listeners.retain(|l| l.tag != tag)` (event_bus.rs line 94): keep,
in order, exactly the listeners whose tag differs from `tag`. -/
def retainByTag : List RuntimeEventListener → String → List RuntimeEventListener
  | [], _ => []
  | l :: rest, tag =>
      if l.tag = tag then retainByTag rest tag else l :: retainByTag rest tag

/-- Mirrors `RuntimeEventBus::remove_all_listeners_by_tag` (event_bus.rs lines
92-96): apply the retain pass to the sequence of every key. -/
def RuntimeEventBus.remove_all_listeners_by_tag (bus : RuntimeEventBus)
    (tag : String) : RuntimeEventBus :=
  ⟨bus.pairs.map fun p => (p.1, retainByTag p.2 tag)⟩

/-- Mirrors the handler closure generated by the `event_handlers!` sugar
(event_bus.rs lines 243-254): downcast the type-erased argument to
`Arc<$arg_type>` — the shared-ownership wrapper around the declared payload
type — and call the user method only when the downcast succeeds; on a
mismatch the closure completes as a silent no-op (empty effect trace). -/
def event_handlers_closure (arg_type : PayloadTy) (handler_fn : Nat → List Nat) :
    DynPayload → List Nat :=
  fun args =>
    match args.downcast (PayloadTy.arc arg_type) with
    | some shared_data => handler_fn shared_data
    | none => []

/-- Mirrors `struct AppInfo` as used by env.rs lines 58-62. -/
structure AppInfo where
  app_name : String
  company : String
  qualifier : String

/-- Mirrors `struct RuntimeModuleEnv` (env.rs lines 7-11); the typestate
parameter is compile-time only and is dropped. -/
structure RuntimeModuleEnv where
  paths : List (String × String)
  app : Option AppInfo

/-- The process-wide mutable state of global.rs lines 9-11: the two lazily
initialised `Option` cells `RUNTIME_MODULE_ENV` and `RUNTIME_EVENT_BUS`. -/
structure GlobalState where
  runtime_module_env : Option RuntimeModuleEnv
  runtime_event_bus : Option RuntimeEventBus

/-- Mirrors `init_runtime` (global.rs lines 13-18): store the environment and
then store a freshly constructed `RuntimeEventBus::new()` — unconditionally,
whatever either cell held before. -/
def init_runtime (st : GlobalState) (env : RuntimeModuleEnv) : GlobalState :=
  let st1 : GlobalState := { st with runtime_module_env := some env }
  { st1 with runtime_event_bus := some RuntimeEventBus.new }

/-- Mirrors `RuntimeEventBus::with_instance_mut` (event_bus.rs lines 61-69):
lock the global cell, panic with the diagnostic when it is still `None`
(`expect`, line 67, modelled as `Except.error`), otherwise apply `f` to the
bus and return its result. -/
def with_instance_mut {R : Type} (st : GlobalState)
    (f : RuntimeEventBus → RuntimeEventBus × R) :
    Except String (GlobalState × R) :=
  match st.runtime_event_bus with
  | some bus =>
      let r := f bus
      Except.ok ({ st with runtime_event_bus := some r.1 }, r.2)
  | none =>
      Except.error "RuntimeEventBus Not initialized! Call init_runtime first."

/-- Mirrors `emit_event` (global.rs lines 31-40): lock the global cell; when a
bus is present, delegate to `RuntimeEventBus::emit`; when the cell is still
`None`, the `if let Some` guard falls through and the function returns
normally having done nothing. -/
def emit_event (st : GlobalState) (event : RuntimeEvent) (argTy : PayloadTy)
    (argData : Nat) : Except String (GlobalState × List Nat) :=
  match st.runtime_event_bus with
  | some bus =>
      let r := bus.emit event argTy argData
      Except.ok ({ st with runtime_event_bus := some r.1 }, r.2)
  | none => Except.ok (st, [])

/-! ### Helper lemmas -/

/-- The delivery loop appends, to whatever log it starts from, the traces of
the listeners in list order. -/
theorem runListenersLog_eq (ls : List RuntimeEventListener) (p : DynPayload)
    (log : List Nat) :
    runListenersLog ls p log = log ++ (ls.map fun l => l.handler p).flatten := by
  induction ls generalizing log with
  | nil => simp [runListenersLog]
  | cons l rest ih => simp [runListenersLog, ih]

/-- The trace of one `emit` is the concatenation, in registration order, of
the traces of the listeners currently stored under the emitted key, each
invoked with the payload wrapped once in the shared-ownership container. -/
theorem emit_trace_eq (bus : RuntimeEventBus) (event : RuntimeEvent)
    (argTy : PayloadTy) (argData : Nat) :
    (bus.emit event argTy argData).2
      = (((findListeners bus.pairs event).getD []).map
          fun l => l.handler ⟨PayloadTy.arc argTy, argData⟩).flatten := by
  unfold RuntimeEventBus.emit
  cases h : findListeners bus.pairs event <;>
    cases event <;> simp [h, runListenersLog_eq]

/-- Lookup after erasing a key: `none` at the erased key, unchanged elsewhere. -/
theorem findListeners_removeEntry
    (pairs : List (RuntimeEvent × List RuntimeEventListener))
    (e k : RuntimeEvent) :
    findListeners (removeEntry pairs e) k
      = if k = e then none else findListeners pairs k := by
  induction pairs with
  | nil => simp [removeEntry, findListeners]
  | cons hd rest ih =>
      obtain ⟨k0, ls0⟩ := hd
      by_cases h0 : k0 = e <;> by_cases hk : k = e <;> by_cases hk0 : k0 = k <;>
        simp_all [removeEntry, findListeners]

/-- Lookup at the inserted key: the old sequence (empty when absent) with the
new listener appended at the end. -/
theorem findListeners_insert_self
    (pairs : List (RuntimeEvent × List RuntimeEventListener))
    (e : RuntimeEvent) (l : RuntimeEventListener) :
    findListeners (insertListener pairs e l) e
      = some ((findListeners pairs e).getD [] ++ [l]) := by
  induction pairs with
  | nil => simp [insertListener, findListeners]
  | cons hd rest ih =>
      obtain ⟨k0, ls0⟩ := hd
      by_cases h0 : k0 = e <;> simp [insertListener, findListeners, h0, ih]

/-- Lookup at any other key is unchanged by an insertion. -/
theorem findListeners_insert_other
    (pairs : List (RuntimeEvent × List RuntimeEventListener))
    (e k : RuntimeEvent) (l : RuntimeEventListener) (h : k ≠ e) :
    findListeners (insertListener pairs e l) k = findListeners pairs k := by
  induction pairs with
  | nil => simp [insertListener, findListeners, Ne.symm h]
  | cons hd rest ih =>
      obtain ⟨k0, ls0⟩ := hd
      by_cases h0 : k0 = e <;> by_cases hk0 : k0 = k <;>
        simp_all [insertListener, findListeners]

/-- The hand-rolled retain pass is `List.filter` of the keep predicate. -/
theorem retainByTag_eq_filter (ls : List RuntimeEventListener) (tag : String) :
    retainByTag ls tag = ls.filter fun l => !(l.tag == tag) := by
  induction ls with
  | nil => simp [retainByTag]
  | cons l rest ih =>
      by_cases h : l.tag = tag <;> simp [retainByTag, List.filter_cons, h, ih]

/-- The retain pass never removes twice: it is idempotent on any sequence. -/
theorem retainByTag_idem (ls : List RuntimeEventListener) (tag : String) :
    retainByTag (retainByTag ls tag) tag = retainByTag ls tag := by
  induction ls with
  | nil => simp [retainByTag]
  | cons l rest ih =>
      by_cases h : l.tag = tag <;> simp [retainByTag, h, ih]

/-- Lookup after the per-key retain pass of `remove_all_listeners_by_tag`. -/
theorem findListeners_retain
    (pairs : List (RuntimeEvent × List RuntimeEventListener))
    (tag : String) (k : RuntimeEvent) :
    findListeners (pairs.map fun p => (p.1, retainByTag p.2 tag)) k
      = (findListeners pairs k).map fun ls => retainByTag ls tag := by
  induction pairs with
  | nil => simp [findListeners]
  | cons hd rest ih =>
      obtain ⟨k0, ls0⟩ := hd
      by_cases h0 : k0 = k <;> simp [findListeners, h0, ih]

/-- The state component of an emit on a `OnceTriggered` key is the registry
with that key's entry erased (event_bus.rs lines 87-89). -/
theorem emit_once_fst (bus : RuntimeEventBus) (n : String) (ty : PayloadTy)
    (d : Nat) :
    (bus.emit (RuntimeEvent.OnceTriggered n) ty d).1
      = ⟨removeEntry bus.pairs (RuntimeEvent.OnceTriggered n)⟩ := rfl

/-- The state component of an emit on a `Static` key is the registry itself
(event_bus.rs line 88 is not reached). -/
theorem emit_static_fst (bus : RuntimeEventBus) (n : String) (ty : PayloadTy)
    (d : Nat) :
    (bus.emit (RuntimeEvent.Static n) ty d).1 = bus := rfl

/-! ### Claim theorems -/

/-- Claim C4: one emit invokes the handlers strictly sequentially in exactly
registration order: the delivery loop appends each listener's completed unit
of work to the shared log before moving to the next listener, and the
observable effect trace of `emit` is the concatenation, in registration
order, of the traces of the listeners stored under the emitted key. -/
theorem emit_invokes_in_registration_order (bus : RuntimeEventBus)
    (event : RuntimeEvent) (argTy : PayloadTy) (argData : Nat)
    (ls : List RuntimeEventListener) (p : DynPayload) (log : List Nat) :
    runListenersLog ls p log = log ++ (ls.map fun l => l.handler p).flatten ∧
    (bus.emit event argTy argData).2
      = (((findListeners bus.pairs event).getD []).map
          fun l => l.handler ⟨PayloadTy.arc argTy, argData⟩).flatten :=
  ⟨runListenersLog_eq ls p log, emit_trace_eq bus event argTy argData⟩

/-- Claim C3: after one emit on a `OnceTriggered` key the entire listener
sequence stored under exactly that key is deleted, so a second emit on the
same key invokes no listener; the first emit's trace runs every listener that
was registered under the key exactly once. -/
theorem once_key_fires_exactly_once (bus : RuntimeEventBus) (n : String)
    (ty ty' : PayloadTy) (d d' : Nat) :
    (bus.emit (RuntimeEvent.OnceTriggered n) ty d).2
      = (((findListeners bus.pairs (RuntimeEvent.OnceTriggered n)).getD []).map
          fun l => l.handler ⟨PayloadTy.arc ty, d⟩).flatten ∧
    findListeners ((bus.emit (RuntimeEvent.OnceTriggered n) ty d).1).pairs
        (RuntimeEvent.OnceTriggered n) = none ∧
    (((bus.emit (RuntimeEvent.OnceTriggered n) ty d).1).emit
        (RuntimeEvent.OnceTriggered n) ty' d').2 = [] := by
  refine ⟨emit_trace_eq .., ?_, ?_⟩
  · simp [emit_once_fst, findListeners_removeEntry]
  · rw [emit_trace_eq]
    simp [emit_once_fst, findListeners_removeEntry]

/-- Claim C8: an emit on a `Static` key leaves the registry mapping entirely
unchanged, so a repeated emission of the same key runs the same listeners and
produces the same trace. -/
theorem static_emit_leaves_registry_unchanged (bus : RuntimeEventBus)
    (n : String) (ty : PayloadTy) (d : Nat) :
    (bus.emit (RuntimeEvent.Static n) ty d).1 = bus ∧
    (((bus.emit (RuntimeEvent.Static n) ty d).1).emit (RuntimeEvent.Static n)
        ty d).2
      = (bus.emit (RuntimeEvent.Static n) ty d).2 :=
  ⟨rfl, rfl⟩

/-- Claim C7: `Static(n)` and `OnceTriggered(n)` are unequal keys indexing
independent registry entries: an emit on `OnceTriggered(n)` erases exactly
that key's sequence and leaves the sequence under every other key — in
particular under `Static(n)` — unchanged. -/
theorem static_and_once_key_spaces_independent (bus : RuntimeEventBus)
    (n : String) (ty : PayloadTy) (d : Nat) (k' : RuntimeEvent)
    (h : k' ≠ RuntimeEvent.OnceTriggered n) :
    RuntimeEvent.Static n ≠ RuntimeEvent.OnceTriggered n ∧
    findListeners ((bus.emit (RuntimeEvent.OnceTriggered n) ty d).1).pairs k'
      = findListeners bus.pairs k' ∧
    findListeners ((bus.emit (RuntimeEvent.OnceTriggered n) ty d).1).pairs
        (RuntimeEvent.OnceTriggered n) = none := by
  refine ⟨fun hh => RuntimeEvent.noConfusion hh, ?_, ?_⟩
  · simp [emit_once_fst, findListeners_removeEntry, h]
  · simp [emit_once_fst, findListeners_removeEntry]

/-- Claim C9: `add_listener` appends the new entry at the end of the sequence
stored under the given key, creating that sequence if absent, with no
uniqueness check: registering the same listener twice yields two entries and
both fire on the next emit of the key; sequences under all other keys are
unchanged. -/
theorem add_listener_appends_at_end (bus : RuntimeEventBus) (k : RuntimeEvent)
    (l : RuntimeEventListener) (k' : RuntimeEvent) (ty : PayloadTy) (d : Nat)
    (h : k' ≠ k) :
    findListeners (bus.add_listener k l).pairs k
      = some ((findListeners bus.pairs k).getD [] ++ [l]) ∧
    findListeners (bus.add_listener k l).pairs k' = findListeners bus.pairs k' ∧
    findListeners ((bus.add_listener k l).add_listener k l).pairs k
      = some ((findListeners bus.pairs k).getD [] ++ [l, l]) ∧
    (((bus.add_listener k l).add_listener k l).emit k ty d).2
      = ((((findListeners bus.pairs k).getD []) ++ [l, l]).map
          fun x => x.handler ⟨PayloadTy.arc ty, d⟩).flatten := by
  have h2 : findListeners ((bus.add_listener k l).add_listener k l).pairs k
      = some ((findListeners bus.pairs k).getD [] ++ [l, l]) := by
    have hstep := findListeners_insert_self (insertListener bus.pairs k l) k l
    rw [findListeners_insert_self bus.pairs k l] at hstep
    simpa [RuntimeEventBus.add_listener] using hstep
  refine ⟨findListeners_insert_self bus.pairs k l,
    findListeners_insert_other bus.pairs k k' l h, h2, ?_⟩
  rw [emit_trace_eq, h2]
  rfl

/-- Claim C6: `remove_all_listeners_by_tag` removes, under every key present
in the registry, exactly the entries whose tag equals the given tag — i.e.
the remaining sequence is the order-preserving filter keeping the other tags,
a sublist of the original — the key itself is retained even when its sequence
becomes empty (the result is still `some`), and a second pass with the same
tag matches nothing and is a no-op. -/
theorem remove_by_tag_filters_exactly (bus : RuntimeEventBus) (tg : String)
    (k : RuntimeEvent) (ls : List RuntimeEventListener)
    (h : findListeners bus.pairs k = some ls) :
    findListeners (bus.remove_all_listeners_by_tag tg).pairs k
      = some (ls.filter fun l => !(l.tag == tg)) ∧
    List.Sublist (ls.filter fun l => !(l.tag == tg)) ls ∧
    (bus.remove_all_listeners_by_tag tg).remove_all_listeners_by_tag tg
      = bus.remove_all_listeners_by_tag tg := by
  refine ⟨?_, List.filter_sublist ls, ?_⟩
  · have hfind := findListeners_retain bus.pairs tg k
    rw [h] at hfind
    simpa [RuntimeEventBus.remove_all_listeners_by_tag, retainByTag_eq_filter]
      using hfind
  · simp only [RuntimeEventBus.remove_all_listeners_by_tag, List.map_map]
    refine congrArg RuntimeEventBus.mk (List.map_congr_left ?_)
    intro p _
    simp [retainByTag_idem]

/-- Claim C5: the handler produced by the type-erasure protocol for declared
payload type `declTy` downcasts to the shared-ownership wrapper type
`arc declTy`; when the emitted payload's bare type differs from the declared
one, the wrapped types differ, that listener completes as a silent no-op
(empty trace, the user method is not called), emission continues with the
remaining listeners, and no error surfaces to the emitter. -/
theorem type_mismatch_silently_skipped (bus : RuntimeEventBus)
    (k : RuntimeEvent) (declTy emitTy : PayloadTy) (m : Nat → List Nat)
    (tg : String) (pre post : List RuntimeEventListener) (d : Nat)
    (hty : emitTy ≠ declTy)
    (hls : findListeners bus.pairs k
      = some (pre ++ RuntimeEventListener.mk tg (event_handlers_closure declTy m)
          :: post)) :
    event_handlers_closure declTy m ⟨PayloadTy.arc emitTy, d⟩ = [] ∧
    event_handlers_closure declTy m ⟨PayloadTy.arc declTy, d⟩ = m d ∧
    (bus.emit k emitTy d).2
      = (pre.map fun l => l.handler ⟨PayloadTy.arc emitTy, d⟩).flatten
        ++ (post.map fun l => l.handler ⟨PayloadTy.arc emitTy, d⟩).flatten := by
  have harc : PayloadTy.arc emitTy ≠ PayloadTy.arc declTy := by simpa using hty
  have hskip : event_handlers_closure declTy m ⟨PayloadTy.arc emitTy, d⟩ = [] := by
    simp [event_handlers_closure, DynPayload.downcast, harc]
  refine ⟨hskip, ?_, ?_⟩
  · simp [event_handlers_closure, DynPayload.downcast]
  · rw [emit_trace_eq, hls]
    simp [hskip]

/-- Claim C1 (amended): calling `init_runtime` again after a successful
initialisation is not an error, but it is not a no-op on the event registry
either: the call unconditionally installs a freshly constructed empty
registry (last writer wins), so no previously registered listener survives —
lookup of any key in the new registry is `none` and emitting any key on it
yields no listener invocation. -/
theorem init_runtime_installs_fresh_registry (st : GlobalState)
    (env : RuntimeModuleEnv) (k : RuntimeEvent) (ty : PayloadTy) (d : Nat) :
    (init_runtime st env).runtime_event_bus = some RuntimeEventBus.new ∧
    (init_runtime st env).runtime_module_env = some env ∧
    findListeners RuntimeEventBus.new.pairs k = none ∧
    (RuntimeEventBus.new.emit k ty d).2 = [] := by
  refine ⟨rfl, rfl, rfl, ?_⟩
  rw [emit_trace_eq]
  simp [RuntimeEventBus.new, findListeners]

/-- Claim C2 (amended): of the two pre-initialisation access paths, only the
registration path aborts: `with_instance_mut` on an uninitialised state
panics with the diagnostic of event_bus.rs line 67, while the public
`emit_event` of global.rs returns normally as a silent no-op, leaving the
state unchanged. -/
theorem pre_init_register_aborts_but_emit_is_silent {R : Type}
    (st : GlobalState) (f : RuntimeEventBus → RuntimeEventBus × R)
    (k : RuntimeEvent) (ty : PayloadTy) (d : Nat)
    (h : st.runtime_event_bus = none) :
    with_instance_mut st f
      = Except.error "RuntimeEventBus Not initialized! Call init_runtime first." ∧
    emit_event st k ty d = Except.ok (st, []) := by
  constructor <;> simp [with_instance_mut, emit_event, h]

/-- Claim C10: calling `emit_event` before initialisation returns normally as
a silent no-op: no abort, no listener invocation (empty trace), and the
global state — still uninitialised — is returned unchanged. -/
theorem emit_event_before_init_silent_noop (st : GlobalState)
    (k : RuntimeEvent) (ty : PayloadTy) (d : Nat)
    (h : st.runtime_event_bus = none) :
    emit_event st k ty d = Except.ok (st, []) := by
  simp [emit_event, h]

/-! ### Concrete sample data for counterexamples and witnesses -/

/-- A sample locked environment, mirroring the values used by the
repository's own test setup (tests/common/mod.rs lines 14-17). -/
def sampleEnv : RuntimeModuleEnv :=
  RuntimeModuleEnv.mk [( "db", "/tmp/test.db")]
    (some (AppInfo.mk "MyApp" "MyCompany" "com"))

/-- A sample registered listener with a concrete effect trace. -/
def regListener : RuntimeEventListener :=
  RuntimeEventListener.mk "InventoryService" (fun _ => [1])

/-- The global state reached by registering `regListener` under
`Static "order.created"` right after the first `init_runtime`. -/
def stAfterRegister : GlobalState :=
  GlobalState.mk (some sampleEnv)
    (some (RuntimeEventBus.mk
      [(RuntimeEvent.Static "order.created", [regListener])]))

/-- A sample bus holding one listener under `Static "x"` and one under
`OnceTriggered "x"`. -/
def sampleBusBoth : RuntimeEventBus :=
  RuntimeEventBus.mk
    [(RuntimeEvent.Static "x", [RuntimeEventListener.mk "S" (fun _ => [1])]),
     (RuntimeEvent.OnceTriggered "x", [RuntimeEventListener.mk "O" (fun _ => [2])])]

/-! ### Counterexamples and witnesses -/

/-- Counterexample to claim C1 as stated: after a first `init_runtime` and a
registration, the registered listener is reachable; a second `init_runtime`
does not retain that registry — it installs the fresh empty one, under which
the listener's key no longer resolves. -/
theorem init_runtime_second_call_loses_listeners :
    with_instance_mut (init_runtime (GlobalState.mk none none) sampleEnv)
        (fun bus =>
          (bus.add_listener (RuntimeEvent.Static "order.created") regListener, ()))
      = Except.ok (stAfterRegister, ()) ∧
    findListeners
        ((stAfterRegister.runtime_event_bus.getD RuntimeEventBus.new).pairs)
        (RuntimeEvent.Static "order.created") = some [regListener] ∧
    (init_runtime stAfterRegister sampleEnv).runtime_event_bus
      ≠ stAfterRegister.runtime_event_bus ∧
    findListeners
        (((init_runtime stAfterRegister sampleEnv).runtime_event_bus.getD
          RuntimeEventBus.new).pairs)
        (RuntimeEvent.Static "order.created") = none := by
  refine ⟨rfl, rfl, ?_, rfl⟩
  intro hcontra
  simp [init_runtime, stAfterRegister, RuntimeEventBus.new] at hcontra

/-- Witness for the amended claim C1 at a concrete state and environment. -/
theorem init_runtime_installs_fresh_registry_witness :
    (init_runtime stAfterRegister sampleEnv).runtime_event_bus
        = some RuntimeEventBus.new ∧
    (init_runtime stAfterRegister sampleEnv).runtime_module_env
        = some sampleEnv ∧
    findListeners RuntimeEventBus.new.pairs (RuntimeEvent.Static "order.created")
        = none ∧
    (RuntimeEventBus.new.emit (RuntimeEvent.Static "order.created")
        (PayloadTy.base "TestPayload") 0).2 = [] :=
  init_runtime_installs_fresh_registry stAfterRegister sampleEnv
    (RuntimeEvent.Static "order.created") (PayloadTy.base "TestPayload") 0

/-- Counterexample to claim C2 as stated: the emit path reaches the registry
cell before initialisation yet returns normally (`Except.ok`, empty trace,
state unchanged) instead of aborting with a diagnostic. -/
theorem emit_event_pre_init_returns_normally :
    emit_event (GlobalState.mk none none) (RuntimeEvent.Static "order.created")
        (PayloadTy.base "TestPayload") 0
      = Except.ok (GlobalState.mk none none, []) ∧
    emit_event (GlobalState.mk none none) (RuntimeEvent.Static "order.created")
        (PayloadTy.base "TestPayload") 0
      ≠ Except.error "RuntimeEventBus Not initialized! Call init_runtime first." :=
  ⟨rfl, fun hcontra => Except.noConfusion hcontra⟩

/-- Witness for the amended claim C2 at the uninitialised state. -/
theorem pre_init_register_aborts_but_emit_is_silent_witness :
    (GlobalState.mk none none).runtime_event_bus = none ∧
    (with_instance_mut (GlobalState.mk none none) (fun bus => (bus, ()))
        = Except.error "RuntimeEventBus Not initialized! Call init_runtime first." ∧
      emit_event (GlobalState.mk none none) (RuntimeEvent.Static "x")
          (PayloadTy.base "P") 0
        = Except.ok (GlobalState.mk none none, [])) :=
  ⟨rfl, pre_init_register_aborts_but_emit_is_silent (GlobalState.mk none none)
    (fun bus => (bus, ())) (RuntimeEvent.Static "x") (PayloadTy.base "P") 0 rfl⟩

/-- Witness for claim C10 at the uninitialised state. -/
theorem emit_event_before_init_silent_noop_witness :
    (GlobalState.mk none none).runtime_event_bus = none ∧
    emit_event (GlobalState.mk none none) (RuntimeEvent.OnceTriggered "boot")
        (PayloadTy.base "P") 7
      = Except.ok (GlobalState.mk none none, []) :=
  ⟨rfl, emit_event_before_init_silent_noop (GlobalState.mk none none)
    (RuntimeEvent.OnceTriggered "boot") (PayloadTy.base "P") 7 rfl⟩

/-- Witness for claim C7 on a bus holding listeners under both `Static "x"`
and `OnceTriggered "x"`. -/
theorem static_and_once_key_spaces_independent_witness :
    (RuntimeEvent.Static "x" : RuntimeEvent) ≠ RuntimeEvent.OnceTriggered "x" ∧
    (RuntimeEvent.Static "x" ≠ RuntimeEvent.OnceTriggered "x" ∧
      findListeners ((sampleBusBoth.emit (RuntimeEvent.OnceTriggered "x")
          (PayloadTy.base "P") 0).1).pairs (RuntimeEvent.Static "x")
        = findListeners sampleBusBoth.pairs (RuntimeEvent.Static "x") ∧
      findListeners ((sampleBusBoth.emit (RuntimeEvent.OnceTriggered "x")
          (PayloadTy.base "P") 0).1).pairs (RuntimeEvent.OnceTriggered "x")
        = none) :=
  ⟨by decide, static_and_once_key_spaces_independent sampleBusBoth "x"
    (PayloadTy.base "P") 0 (RuntimeEvent.Static "x") (by decide)⟩

/-- A duplicate listener used to witness that double registration yields two
entries. -/
def sampleDupListener : RuntimeEventListener :=
  RuntimeEventListener.mk "S" (fun _ => [5])

/-- Witness for claim C9: appending a listener twice under `Static "x"` on a
concrete bus. -/
theorem add_listener_appends_at_end_witness :
    (RuntimeEvent.OnceTriggered "x" : RuntimeEvent) ≠ RuntimeEvent.Static "x" ∧
    (findListeners (sampleBusBoth.add_listener (RuntimeEvent.Static "x")
          sampleDupListener).pairs (RuntimeEvent.Static "x")
        = some ((findListeners sampleBusBoth.pairs
            (RuntimeEvent.Static "x")).getD [] ++ [sampleDupListener]) ∧
      findListeners (sampleBusBoth.add_listener (RuntimeEvent.Static "x")
          sampleDupListener).pairs (RuntimeEvent.OnceTriggered "x")
        = findListeners sampleBusBoth.pairs (RuntimeEvent.OnceTriggered "x") ∧
      findListeners ((sampleBusBoth.add_listener (RuntimeEvent.Static "x")
            sampleDupListener).add_listener (RuntimeEvent.Static "x")
          sampleDupListener).pairs (RuntimeEvent.Static "x")
        = some ((findListeners sampleBusBoth.pairs
            (RuntimeEvent.Static "x")).getD []
              ++ [sampleDupListener, sampleDupListener]) ∧
      (((sampleBusBoth.add_listener (RuntimeEvent.Static "x")
            sampleDupListener).add_listener (RuntimeEvent.Static "x")
          sampleDupListener).emit (RuntimeEvent.Static "x")
          (PayloadTy.base "P") 3).2
        = ((((findListeners sampleBusBoth.pairs
              (RuntimeEvent.Static "x")).getD [])
                ++ [sampleDupListener, sampleDupListener]).map
            fun x => x.handler ⟨PayloadTy.arc (PayloadTy.base "P"), 3⟩).flatten) :=
  ⟨by decide, add_listener_appends_at_end sampleBusBoth (RuntimeEvent.Static "x")
    sampleDupListener (RuntimeEvent.OnceTriggered "x") (PayloadTy.base "P") 3
    (by decide)⟩

/-- The listener sequence of the tag-removal witness: tags A, A, B. -/
def tagLs : List RuntimeEventListener :=
  [RuntimeEventListener.mk "A" (fun _ => [1]),
   RuntimeEventListener.mk "A" (fun _ => [2]),
   RuntimeEventListener.mk "B" (fun _ => [3])]

/-- A bus holding `tagLs` under `Static "t"`. -/
def tagBus : RuntimeEventBus :=
  RuntimeEventBus.mk [(RuntimeEvent.Static "t", tagLs)]

/-- Witness for claim C6: removing tag A from a sequence tagged A, A, B. -/
theorem remove_by_tag_filters_exactly_witness :
    findListeners tagBus.pairs (RuntimeEvent.Static "t") = some tagLs ∧
    (findListeners (tagBus.remove_all_listeners_by_tag "A").pairs
          (RuntimeEvent.Static "t")
        = some (tagLs.filter fun l => !(l.tag == "A")) ∧
      List.Sublist (tagLs.filter fun l => !(l.tag == "A")) tagLs ∧
      (tagBus.remove_all_listeners_by_tag "A").remove_all_listeners_by_tag "A"
        = tagBus.remove_all_listeners_by_tag "A") :=
  ⟨rfl, remove_by_tag_filters_exactly tagBus "A" (RuntimeEvent.Static "t")
    tagLs rfl⟩

/-- A listener wired by the type-erasure sugar for declared payload type
`OrderEvent`. -/
def mismatchListener : RuntimeEventListener :=
  RuntimeEventListener.mk "M"
    (event_handlers_closure (PayloadTy.base "OrderEvent") (fun x => [x]))

/-- Listeners registered before the mismatching one. -/
def preL : List RuntimeEventListener := [RuntimeEventListener.mk "A" (fun _ => [7])]

/-- Listeners registered after the mismatching one. -/
def postL : List RuntimeEventListener := [RuntimeEventListener.mk "B" (fun _ => [9])]

/-- A bus whose `Static "e"` sequence surrounds the mismatching listener. -/
def mixedBus : RuntimeEventBus :=
  RuntimeEventBus.mk [(RuntimeEvent.Static "e", preL ++ mismatchListener :: postL)]

/-- Witness for claim C5: emitting a payload of bare type `TestPayload` past
a listener declared for `OrderEvent`. -/
theorem type_mismatch_silently_skipped_witness :
    (PayloadTy.base "TestPayload" : PayloadTy) ≠ PayloadTy.base "OrderEvent" ∧
    findListeners mixedBus.pairs (RuntimeEvent.Static "e")
      = some (preL ++ RuntimeEventListener.mk "M"
          (event_handlers_closure (PayloadTy.base "OrderEvent") (fun x => [x]))
            :: postL) ∧
    (event_handlers_closure (PayloadTy.base "OrderEvent") (fun x => [x])
        ⟨PayloadTy.arc (PayloadTy.base "TestPayload"), 5⟩ = [] ∧
      event_handlers_closure (PayloadTy.base "OrderEvent") (fun x => [x])
        ⟨PayloadTy.arc (PayloadTy.base "OrderEvent"), 5⟩ = [5] ∧
      (mixedBus.emit (RuntimeEvent.Static "e") (PayloadTy.base "TestPayload") 5).2
        = (preL.map fun l =>
            l.handler ⟨PayloadTy.arc (PayloadTy.base "TestPayload"), 5⟩).flatten
          ++ (postL.map fun l =>
            l.handler ⟨PayloadTy.arc (PayloadTy.base "TestPayload"), 5⟩).flatten) :=
  ⟨by decide, rfl, type_mismatch_silently_skipped mixedBus (RuntimeEvent.Static "e")
    (PayloadTy.base "OrderEvent") (PayloadTy.base "TestPayload") (fun x => [x])
    "M" preL postL 5 (by decide) rfl⟩

end Rumt
